import Mathlib

/-!
Shallow embedding of the booking-modal business logic of the car-wash
marketplace front-end: the availability deriver (operating hours to
half-hour slot lists), the pricing calculator (offer discount and
loyalty-coin redemption), the booking step machine, and the submission
sequencer.  Each definition mirrors one function of the source component;
JavaScript numbers are modelled as exact rationals, integer counts as
naturals, and the effectful collaborators (signup, createAppointment) as
explicit outcome parameters.
-/

namespace Booking

/-- A calendar date, modelled by the lowercase full English weekday name
that the source derives from it (format with pattern EEEE, lowercased). -/
structure Date where
  weekday : String
deriving DecidableEq

/-- Weekly operating-hours entry for one weekday.  The source fields are
named open and close; open is a reserved word here, hence the suffix. -/
structure OperatingHours where
  openTime : String
  closeTime : String
deriving DecidableEq

/-- A vendor, restricted to the field the booking modal reads: the weekly
operating-hours table, a lookup from lowercase weekday names. -/
structure Vendor where
  operatingHours : String → Option OperatingHours

/-- Default hours used when the weekday key is absent from the table. -/
def defaultHours : OperatingHours := ⟨"09:00", "17:00"⟩

/-- Source getDayOperatingHours: resolve the weekday name of the date and
look the hours up in the vendor table, falling back to 09:00-17:00. -/
def getDayOperatingHours (date : Date) (vendor : Vendor) : OperatingHours :=
  let dayName := date.weekday
  (vendor.operatingHours dayName).getD defaultHours

/-- Split a character list at every occurrence of the separator, keeping
empty segments, matching the semantics of the split method on strings. -/
def splitChars (sep : Char) : List Char → List (List Char)
  | [] => [[]]
  | c :: cs =>
      match splitChars sep cs with
      | [] => if c = sep then [[], []] else [[c]]
      | r :: rs => if c = sep then [] :: r :: rs else (c :: r) :: rs

/-- Models the split on a colon used to destructure HH:MM strings. -/
def splitOnColon (s : String) : List String :=
  (splitChars ':' s.data).map (fun l => ⟨l⟩)

/-- The longest leading run of decimal digits of a character list. -/
def digitsPrefix : List Char → List Char
  | [] => []
  | c :: cs => if c.isDigit then c :: digitsPrefix cs else []

/-- Models JavaScript parseInt: the value of the longest leading run of
decimal digits, and none, modelling NaN, when there is no leading digit. -/
def parseIntStr (s : String) : Option Nat :=
  match digitsPrefix s.data with
  | [] => none
  | ds => some (ds.foldl (fun acc c => acc * 10 + (c.toNat - Char.toNat '0')) 0)

/-- Default minute component when an HH value has no colon part. -/
def defaultMinuteStr : String := "0"

/-- The minutes-since-midnight computation of the source, parseInt of the
hour times 60 plus parseInt of the minute (defaulting to 0 when absent as
in the destructuring); none models the NaN the sum becomes when either
component fails to parse. -/
def timeToMinutesJS (s : String) : Option Nat :=
  let parts := splitOnColon s
  match parseIntStr (parts.getD 0 defaultMinuteStr),
      parseIntStr (parts.getD 1 defaultMinuteStr) with
  | some h, some m => some (h * 60 + m)
  | _, _ => none

/-- Total companion of timeToMinutesJS used in theorem statements: the
minute value of a string that parses as HH:MM, and 0 otherwise. -/
def timeToMinutes (s : String) : Nat :=
  (timeToMinutesJS s).getD 0

/-- Models String.padStart(2, '0'): prefix with zeros up to length 2. -/
def padStart2 (s : String) : String :=
  ⟨List.replicate (2 - s.length) '0' ++ s.data⟩

/-- Format minutes since midnight back to a zero-padded HH:MM string, as
the loop body of the source does. -/
def formatSlot (time : Nat) : String :=
  let hour := time / 60
  let minute := time % 60
  padStart2 (toString hour) ++ ":" ++ padStart2 (toString minute)

/-- The slot-collection loop of the source, with an explicit structural
fuel bounding the iteration count: starting at time, step by 30 minutes
while strictly below endTime. -/
def slotLoopAux : Nat → Nat → Nat → List Nat
  | 0, _, _ => []
  | fuel + 1, time, endTime =>
      if time < endTime then time :: slotLoopAux fuel (time + 30) endTime else []

/-- The slot-collection loop of the source: starting at startTime, step by
30 minutes while strictly below endTime.  endTime iterations of fuel are
always enough, since each iteration advances by 30 minutes. -/
def slotLoop (time endTime : Nat) : List Nat :=
  slotLoopAux endTime time endTime

/-- The body of getAvailableTimes after the hours are resolved: closed
sentinel gives no slots, the 24-hour sentinel a fixed 48-entry grid, and
otherwise the half-hour loop from open (inclusive) to close (exclusive). -/
def availableTimesFor (hours : OperatingHours) : List String :=
  if hours.openTime = "closed" ∧ hours.closeTime = "closed" then
    []
  else if hours.openTime = "00:00" ∧ hours.closeTime = "23:59" then
    (List.range 48).map (fun i =>
      let hour := i / 2
      let minute := if i % 2 = 0 then "00" else "30"
      padStart2 (toString hour) ++ ":" ++ minute)
  else
    match timeToMinutesJS hours.openTime, timeToMinutesJS hours.closeTime with
    | some startTime, some endTime => (slotLoop startTime endTime).map formatSlot
    | _, _ => []

/-- Source getAvailableTimes: empty without a selected date, otherwise the
slot list derived from the resolved operating hours of that date. -/
def getAvailableTimes (selectedDate : Option Date) (vendor : Vendor) : List String :=
  match selectedDate with
  | none => []
  | some d => availableTimesFor (getDayOperatingHours d vendor)

/-- Source hasAvailableTimes: a date is selectable iff its resolved hours
are not the closed sentinel; no slot enumeration is involved. -/
def hasAvailableTimes (date : Date) (vendor : Vendor) : Bool :=
  let hours := getDayOperatingHours date vendor
  !(hours.openTime == "closed" && hours.closeTime == "closed")

end Booking
namespace Booking

/-- The spec-side slot list for the regular case: the zero-padded HH:MM
strings of every 30-minute boundary of the day that lies in the half-open
window from startTime (inclusive) to endTime (exclusive). -/
def specBoundarySlots (startTime endTime : Nat) : List String :=
  (((List.range 48).map (fun k => 30 * k)).filter
    (fun t => decide (startTime ≤ t) && decide (t < endTime))).map formatSlot

lemma slotLoopAux_eq (fuel : Nat) : ∀ t e : Nat, (e - t + 29) / 30 ≤ fuel →
    slotLoopAux fuel t e = List.range' t ((e - t + 29) / 30) 30 := by
  induction fuel with
  | zero =>
      intro t e h
      have h0 : (e - t + 29) / 30 = 0 := Nat.le_zero.mp h
      have : ¬ t < e := by omega
      simp [slotLoopAux, h0, List.range']
  | succ n ih =>
      intro t e h
      simp only [slotLoopAux]
      by_cases hlt : t < e
      · rw [if_pos hlt, ih (t + 30) e (by omega)]
        have hc : (e - t + 29) / 30 = (e - (t + 30) + 29) / 30 + 1 := by omega
        rw [hc]
        rfl
      · rw [if_neg hlt]
        have h0 : (e - t + 29) / 30 = 0 := by omega
        simp [h0, List.range']

lemma slotLoop_eq (t e : Nat) : slotLoop t e = List.range' t ((e - t + 29) / 30) 30 :=
  slotLoopAux_eq e t e (by omega)

lemma range_filter_eq (a b n : Nat) :
    (List.range n).filter (fun k => decide (a ≤ k) && decide (k < b)) =
      List.range' a (min b n - a) := by
  induction n with
  | zero => simp
  | succ n ih =>
      rw [List.range_succ, List.filter_append, ih]
      by_cases h1 : a ≤ n ∧ n < b
      · have hf : List.filter (fun k => decide (a ≤ k) && decide (k < b)) [n] = [n] := by
          simp [List.filter, h1.1, h1.2]
        rw [hf]
        have hmn : min b n - a = n - a := by omega
        have hmn1 : min b (n + 1) - a = (n - a) + 1 := by omega
        rw [hmn, hmn1, List.range'_concat]
        have : a + 1 * (n - a) = n := by omega
        rw [this]
      · have hf : List.filter (fun k => decide (a ≤ k) && decide (k < b)) [n] = [] := by
          rcases Decidable.not_and_iff_or_not.mp h1 with h | h <;> simp [List.filter, h]
        rw [hf, List.append_nil]
        have : min b (n + 1) - a = min b n - a := by omega
        rw [this]

lemma map_mul_range' (c : Nat) : ∀ (a m : Nat),
    (List.range' a m).map (fun k => c * k) = List.range' (c * a) m c := by
  intro a m
  induction m generalizing a with
  | zero => rfl
  | succ m ih =>
      simp only [List.range', List.map_cons, ih]
      have : c * (a + 1) = c * a + c := by ring
      rw [this]

/-- The spec-side slot list of the amended claim: the zero-padded HH:MM
strings of every minute value t in the half-open window from startTime
(inclusive) to endTime (exclusive) that is a whole number of 30-minute
steps from startTime, the grid being anchored at the open time. -/
def specAnchoredSlots (startTime endTime : Nat) : List String :=
  ((List.range endTime).filter
    (fun t => decide (startTime ≤ t) && decide ((t - startTime) % 30 = 0))).map formatSlot

lemma range_filter_anchored (s n : Nat) :
    (List.range n).filter (fun t => decide (s ≤ t) && decide ((t - s) % 30 = 0)) =
      List.range' s ((n - s + 29) / 30) 30 := by
  induction n with
  | zero => simp
  | succ n ih =>
      rw [List.range_succ, List.filter_append, ih]
      by_cases h1 : s ≤ n ∧ (n - s) % 30 = 0
      · have hf : List.filter (fun t => decide (s ≤ t) && decide ((t - s) % 30 = 0)) [n]
            = [n] := by
          simp [List.filter, h1.1, h1.2]
        rw [hf]
        have hstep : (n + 1 - s + 29) / 30 = (n - s + 29) / 30 + 1 := by omega
        rw [hstep, List.range'_concat]
        have hn : s + 30 * ((n - s + 29) / 30) = n := by omega
        rw [hn]
      · have hf : List.filter (fun t => decide (s ≤ t) && decide ((t - s) % 30 = 0)) [n]
            = [] := by
          rcases Decidable.not_and_iff_or_not.mp h1 with h | h <;> simp [List.filter, h]
        rw [hf, List.append_nil]
        have hsame : (n + 1 - s + 29) / 30 = (n - s + 29) / 30 := by omega
        rw [hsame]

lemma availableTimesFor_parsed (hours : OperatingHours) (so eo : Nat)
    (hc : ¬(hours.openTime = "closed" ∧ hours.closeTime = "closed"))
    (h24 : ¬(hours.openTime = "00:00" ∧ hours.closeTime = "23:59"))
    (ho : timeToMinutesJS hours.openTime = some so)
    (he : timeToMinutesJS hours.closeTime = some eo) :
    availableTimesFor hours = (slotLoop so eo).map formatSlot := by
  rw [availableTimesFor, if_neg hc, if_neg h24, ho, he]

lemma slotLoop_anchored (so eo : Nat) :
    (slotLoop so eo).map formatSlot = specAnchoredSlots so eo := by
  rw [specAnchoredSlots, range_filter_anchored, slotLoop_eq]

lemma boundary_slots_eq (so eo : Nat) (h30 : 30 ∣ so) (hle : eo ≤ 1440) :
    (slotLoop so eo).map formatSlot = specBoundarySlots so eo := by
  obtain ⟨a, ha⟩ := h30
  simp only [specBoundarySlots]
  rw [slotLoop_eq]
  congr 1
  rw [List.filter_map]
  have hcong : ((List.range 48).filter
      ((fun t => decide (so ≤ t) && decide (t < eo)) ∘ (fun k => 30 * k))) =
      ((List.range 48).filter (fun k => decide (a ≤ k) && decide (k < (eo + 29) / 30))) := by
    apply List.filter_congr
    intro x _
    simp only [Function.comp]
    congr 1 <;> rw [decide_eq_decide] <;> omega
  rw [hcong, range_filter_eq, map_mul_range']
  have h1 : 30 * a = so := ha.symm
  have h2 : min ((eo + 29) / 30) 48 - a = (eo - so + 29) / 30 := by omega
  rw [h1, h2]

end Booking

namespace Booking

/-- Concrete fixtures for witnesses. -/
def dateMonday : Date := ⟨"monday"⟩

def vendorStd : Vendor := ⟨fun day => if day = "monday" then some ⟨"09:00", "17:00"⟩ else none⟩

def vendorClosed : Vendor := ⟨fun day => if day = "monday" then some ⟨"closed", "closed"⟩ else none⟩

def vendorAllDay : Vendor := ⟨fun _ => some ⟨"00:00", "23:59"⟩⟩

/-- A vendor whose Monday open time 09:15 is not on a half-hour boundary
of the day, for the C4 counterexample. -/
def vendorUnaligned : Vendor :=
  ⟨fun day => if day = "monday" then some ⟨"09:15", "10:00"⟩ else none⟩

/-- Claim C4 refutation: the claim says the derived slot list is exactly
the zero-padded HH:MM strings of every 30-minute boundary t with open
minutes at most t strictly below close minutes, for every non-sentinel
hours.  For open 09:15 and close 10:00 (in the claim's scope) the code
anchors the grid at the open time and emits 09:15 and 09:45, while the
claimed boundary set is the single entry 09:30. -/
theorem getAvailableTimes_boundary_counterexample :
    (¬((getDayOperatingHours dateMonday vendorUnaligned).openTime = "closed" ∧
        (getDayOperatingHours dateMonday vendorUnaligned).closeTime = "closed")) ∧
    (¬((getDayOperatingHours dateMonday vendorUnaligned).openTime = "00:00" ∧
        (getDayOperatingHours dateMonday vendorUnaligned).closeTime = "23:59")) ∧
    timeToMinutes (getDayOperatingHours dateMonday vendorUnaligned).openTime = 555 ∧
    timeToMinutes (getDayOperatingHours dateMonday vendorUnaligned).closeTime = 600 ∧
    getAvailableTimes (some dateMonday) vendorUnaligned = ["09:15", "09:45"] ∧
    specBoundarySlots 555 600 = ["09:30"] ∧
    getAvailableTimes (some dateMonday) vendorUnaligned ≠ specBoundarySlots 555 600 := by
  refine ⟨by decide, by decide, by decide, by decide, by decide, by decide, by decide⟩

/-- Claim C4 as amended: for every date and vendor whose resolved weekday
hours are neither the closed sentinel nor the 24-hour sentinel and whose
open and close times parse as HH:MM, the derived slot list is exactly the
zero-padded HH:MM strings of every minute value t with open minutes at
most t strictly below close minutes lying a whole number of 30-minute
steps from the open time (the grid is anchored at the open time, the
close boundary excluded); when the open time lies on a half-hour boundary
of the day and the close time is within the day these are exactly the
30-minute boundaries of the day in the window, and for open 09:00 and
close 17:00 this is the 16 entries 09:00 through 16:30, never 17:00. -/
theorem getAvailableTimes_anchored_grid (d : Date) (v : Vendor) (so eo : Nat)
    (hc : ¬((getDayOperatingHours d v).openTime = "closed" ∧
        (getDayOperatingHours d v).closeTime = "closed"))
    (h24 : ¬((getDayOperatingHours d v).openTime = "00:00" ∧
        (getDayOperatingHours d v).closeTime = "23:59"))
    (ho : timeToMinutesJS (getDayOperatingHours d v).openTime = some so)
    (he : timeToMinutesJS (getDayOperatingHours d v).closeTime = some eo) :
    getAvailableTimes (some d) v = specAnchoredSlots so eo ∧
    (30 ∣ so → eo ≤ 1440 →
      getAvailableTimes (some d) v = specBoundarySlots so eo) ∧
    (getDayOperatingHours d v = ⟨"09:00", "17:00"⟩ →
      getAvailableTimes (some d) v =
        ["09:00", "09:30", "10:00", "10:30", "11:00", "11:30", "12:00", "12:30", "13:00",
         "13:30", "14:00", "14:30", "15:00", "15:30", "16:00", "16:30"] ∧
      "17:00" ∉ getAvailableTimes (some d) v) := by
  have hg : getAvailableTimes (some d) v = availableTimesFor (getDayOperatingHours d v) := rfl
  have hreg : availableTimesFor (getDayOperatingHours d v) = (slotLoop so eo).map formatSlot :=
    availableTimesFor_parsed _ so eo hc h24 ho he
  refine ⟨?_, ?_, ?_⟩
  · rw [hg, hreg, slotLoop_anchored]
  · intro h30 hle
    rw [hg, hreg, boundary_slots_eq so eo h30 hle]
  · intro hh
    rw [hg, hh]
    exact ⟨by decide, by decide⟩

theorem getAvailableTimes_anchored_grid_witness :
    (¬((getDayOperatingHours dateMonday vendorStd).openTime = "closed" ∧
        (getDayOperatingHours dateMonday vendorStd).closeTime = "closed")) ∧
    timeToMinutesJS (getDayOperatingHours dateMonday vendorStd).openTime = some 540 ∧
    timeToMinutesJS (getDayOperatingHours dateMonday vendorStd).closeTime = some 1020 ∧
    (getAvailableTimes (some dateMonday) vendorStd = specAnchoredSlots 540 1020 ∧
    (30 ∣ 540 → 1020 ≤ 1440 →
      getAvailableTimes (some dateMonday) vendorStd = specBoundarySlots 540 1020) ∧
    (getDayOperatingHours dateMonday vendorStd = ⟨"09:00", "17:00"⟩ →
      getAvailableTimes (some dateMonday) vendorStd =
        ["09:00", "09:30", "10:00", "10:30", "11:00", "11:30", "12:00", "12:30", "13:00",
         "13:30", "14:00", "14:30", "15:00", "15:30", "16:00", "16:30"] ∧
      "17:00" ∉ getAvailableTimes (some dateMonday) vendorStd)) :=
  ⟨by decide, by decide, by decide,
    getAvailableTimes_anchored_grid dateMonday vendorStd 540 1020 (by decide) (by decide)
      (by decide) (by decide)⟩

/-- Claim C5: for every date whose weekday hours are the closed sentinel
the derived slot list is empty and the date is marked unavailable, and
conversely a date is marked available iff its resolved hours are not the
closed sentinel (hasAvailableTimes inspects only the sentinel, never the
slot grid). -/
theorem closed_sentinel_unavailable (d : Date) (v : Vendor) :
    ((getDayOperatingHours d v).openTime = "closed" ∧
        (getDayOperatingHours d v).closeTime = "closed" →
      getAvailableTimes (some d) v = [] ∧ hasAvailableTimes d v = false) ∧
    (hasAvailableTimes d v = true ↔
      ¬((getDayOperatingHours d v).openTime = "closed" ∧
        (getDayOperatingHours d v).closeTime = "closed")) := by
  constructor
  · rintro ⟨h1, h2⟩
    refine ⟨?_, ?_⟩
    · have hg : getAvailableTimes (some d) v = availableTimesFor (getDayOperatingHours d v) := rfl
      rw [hg, availableTimesFor, if_pos ⟨h1, h2⟩]
    · simp [hasAvailableTimes, h1, h2]
  · simp only [hasAvailableTimes, Bool.not_eq_true', Bool.and_eq_false_iff,
      beq_eq_false_iff_ne, ne_eq]
    tauto

theorem closed_sentinel_unavailable_witness :
    ((getDayOperatingHours dateMonday vendorClosed).openTime = "closed" ∧
      (getDayOperatingHours dateMonday vendorClosed).closeTime = "closed") ∧
    (getAvailableTimes (some dateMonday) vendorClosed = [] ∧
      hasAvailableTimes dateMonday vendorClosed = false) :=
  ⟨by decide, (closed_sentinel_unavailable dateMonday vendorClosed).1 (by decide)⟩

/-- Claim C6: for every date whose weekday hours are exactly open 00:00
and close 23:59, the derived slot list has exactly 48 entries, 00:00
through 23:30 in increasing order with a step of 30 minutes (the mapped
minute values are 0, 30, ..., 1410). -/
theorem allDay_sentinel_48_slots (d : Date) (v : Vendor)
    (h : getDayOperatingHours d v = ⟨"00:00", "23:59"⟩) :
    getAvailableTimes (some d) v =
      ["00:00", "00:30", "01:00", "01:30", "02:00", "02:30", "03:00", "03:30", "04:00",
       "04:30", "05:00", "05:30", "06:00", "06:30", "07:00", "07:30", "08:00", "08:30",
       "09:00", "09:30", "10:00", "10:30", "11:00", "11:30", "12:00", "12:30", "13:00",
       "13:30", "14:00", "14:30", "15:00", "15:30", "16:00", "16:30", "17:00", "17:30",
       "18:00", "18:30", "19:00", "19:30", "20:00", "20:30", "21:00", "21:30", "22:00",
       "22:30", "23:00", "23:30"] ∧
    (getAvailableTimes (some d) v).length = 48 ∧
    (getAvailableTimes (some d) v).map timeToMinutes = List.range' 0 48 30 := by
  have hg : getAvailableTimes (some d) v = availableTimesFor (getDayOperatingHours d v) := rfl
  rw [hg, h]
  exact ⟨by decide, by decide, by decide⟩

theorem allDay_sentinel_48_slots_witness :
    getDayOperatingHours dateMonday vendorAllDay = ⟨"00:00", "23:59"⟩ ∧
    ((getAvailableTimes (some dateMonday) vendorAllDay).length = 48 ∧
      (getAvailableTimes (some dateMonday) vendorAllDay).map timeToMinutes =
        List.range' 0 48 30) :=
  ⟨by decide, (allDay_sentinel_48_slots dateMonday vendorAllDay (by decide)).2⟩

end Booking
namespace Booking

/-- A service, restricted to the fields the booking modal reads: the
identifier and the base price in currency units. -/
structure Service where
  id : String
  price : ℚ
deriving DecidableEq

/-- An offer: a percentage discount on one service, with an active flag
and a validity window given as timestamps. -/
structure Offer where
  serviceId : String
  discountPercentage : ℚ
  active : Bool
  startDate : ℚ
  endDate : ℚ
deriving DecidableEq

/-- A loyalty wallet holding a non-negative count of coins. -/
structure Wallet where
  coins : Nat
deriving DecidableEq

/-- A user record, restricted to the wallet the booking modal reads. -/
structure User where
  wallet : Wallet
deriving DecidableEq

/-- The offers state after the modal-open effect: the source fetches the
vendor offers only when an authenticated session exists, keeping only the
active ones; without a session the state keeps its initial empty value. -/
def loadedOffers (currentUser : Option String) (vendorOffers : List Offer) : List Offer :=
  match currentUser with
  | some _ => vendorOffers.filter (fun o => o.active)
  | none => []

/-- Source getServiceDiscount: the discount percentage of the first loaded
offer for this service whose validity window contains now, or 0. -/
def getServiceDiscount (offers : List Offer) (service : Service) (now : ℚ) : ℚ :=
  match offers.find? (fun o =>
      o.serviceId == service.id && decide (o.startDate ≤ now) && decide (now ≤ o.endDate)) with
  | some o => o.discountPercentage
  | none => 0

/-- Source getDiscountedPrice: apply the resolved percentage discount to
the base price when it is positive, else the base price unchanged. -/
def getDiscountedPrice (offers : List Offer) (service : Service) (now : ℚ) : ℚ :=
  let discount := getServiceDiscount offers service now
  if discount > 0 then service.price * (1 - discount / 100) else service.price

/-- The wallet coin count the submission reads, 0 when no user data was
loaded (the optional-chaining fallback of the source). -/
def walletCoinsOr0 (userData : Option User) : Nat :=
  match userData with
  | some u => u.wallet.coins
  | none => 0

/-- The payable total of the source, as computed both on the confirm view
and in the appointment record: with redemption enabled, the discounted
price less the currency value of the redeemable coins, floored at zero;
else the discounted price. -/
def finalPrice (offers : List Offer) (service : Service) (now : ℚ)
    (useCoins : Bool) (userData : Option User) : ℚ :=
  if useCoins then
    max 0 (getDiscountedPrice offers service now -
      ((min (walletCoinsOr0 userData : ℤ)
          ⌊getDiscountedPrice offers service now / (0.5 : ℚ)⌋ : ℤ) : ℚ) * (0.5 : ℚ))
  else getDiscountedPrice offers service now

/-- Claim C3: for every service, resolved discount d between 0 and 100
and wallet balance, the final price with redemption enabled equals
max(0, dp - min(w, floor(dp / 0.5)) * 0.5) with dp the discounted price
basePrice * (1 - d / 100), equals dp with redemption disabled, and is
never negative. -/
theorem finalPrice_formula (offers : List Offer) (service : Service) (now : ℚ)
    (userData : Option User)
    (hp : 0 ≤ service.price)
    (hd0 : 0 ≤ getServiceDiscount offers service now)
    (hd1 : getServiceDiscount offers service now ≤ 100) :
    finalPrice offers service now true userData =
      max 0 (service.price * (1 - getServiceDiscount offers service now / 100) -
        ((min (walletCoinsOr0 userData : ℤ)
            ⌊service.price * (1 - getServiceDiscount offers service now / 100) / (0.5 : ℚ)⌋ : ℤ) : ℚ)
          * (0.5 : ℚ)) ∧
    finalPrice offers service now false userData =
      service.price * (1 - getServiceDiscount offers service now / 100) ∧
    (∀ b : Bool, 0 ≤ finalPrice offers service now b userData) := by
  have hdp : getDiscountedPrice offers service now =
      service.price * (1 - getServiceDiscount offers service now / 100) := by
    rw [getDiscountedPrice]
    by_cases h : getServiceDiscount offers service now > 0
    · rw [if_pos h]
    · rw [if_neg h]
      have : getServiceDiscount offers service now = 0 := le_antisymm (not_lt.mp h) hd0
      rw [this]
      ring
  refine ⟨?_, ?_, ?_⟩
  · rw [finalPrice, if_pos rfl, hdp]
  · rw [finalPrice, hdp]
    rfl
  · intro b
    cases b with
    | true =>
        rw [finalPrice]
        simp only [if_pos]
        exact le_max_left 0 _
    | false =>
        rw [finalPrice]
        simp only [Bool.false_eq_true, if_neg, hdp]
        have h1 : 0 ≤ 1 - getServiceDiscount offers service now / 100 := by linarith
        positivity

/-- A concrete service fixture: base price 1.00. -/
def serviceOne : Service := ⟨"svc-one", 1⟩

theorem finalPrice_formula_witness :
    (0 : ℚ) ≤ serviceOne.price ∧
    (0 : ℚ) ≤ getServiceDiscount [] serviceOne 0 ∧
    getServiceDiscount [] serviceOne 0 ≤ 100 ∧
    (finalPrice [] serviceOne 0 true (some ⟨⟨100⟩⟩) =
      max 0 (serviceOne.price * (1 - getServiceDiscount [] serviceOne 0 / 100) -
        ((min (walletCoinsOr0 (some ⟨⟨100⟩⟩) : ℤ)
            ⌊serviceOne.price * (1 - getServiceDiscount [] serviceOne 0 / 100) / (0.5 : ℚ)⌋ : ℤ) : ℚ)
          * (0.5 : ℚ)) ∧
    finalPrice [] serviceOne 0 false (some ⟨⟨100⟩⟩) =
      serviceOne.price * (1 - getServiceDiscount [] serviceOne 0 / 100) ∧
    (∀ b : Bool, 0 ≤ finalPrice [] serviceOne 0 b (some ⟨⟨100⟩⟩))) ∧
    finalPrice [] serviceOne 0 true (some ⟨⟨100⟩⟩) = 0 :=
  ⟨by norm_num [getServiceDiscount, serviceOne],
   by norm_num [getServiceDiscount],
   by norm_num [getServiceDiscount],
   finalPrice_formula [] serviceOne 0 (some ⟨⟨100⟩⟩)
     (by norm_num [serviceOne]) (by norm_num [getServiceDiscount])
     (by norm_num [getServiceDiscount]),
   by norm_num [finalPrice, getDiscountedPrice, getServiceDiscount, walletCoinsOr0, serviceOne]⟩

end Booking
namespace Booking

/-- The booking step enumeration of the source, without the terminal
success display state (held in a separate flag there). -/
inductive Step where
  | date
  | time
  | details
  | signup
  | confirm
deriving DecidableEq

/-- Customer details collected by the modal; password is collected only on
the signup step and is the empty string until then (its JavaScript
truthiness is nonemptiness here). -/
structure CustomerDetails where
  firstName : String
  lastName : String
  email : String
  phone : String
  licensePlate : String
  password : String
deriving DecidableEq

/-- Source nextStep: the guarded forward transition of the step machine;
a failed guard leaves the step unchanged. -/
def nextStep (currentUser : Option String) (selectedDate : Option Date)
    (selectedTime : String) (customerDetails : CustomerDetails) (currentStep : Step) : Step :=
  if currentStep = .date ∧ selectedDate ≠ none then
    .time
  else if currentStep = .time ∧ selectedTime ≠ "" then
    .details
  else if currentStep = .details ∧ customerDetails.firstName ≠ "" ∧
      customerDetails.lastName ≠ "" ∧ customerDetails.email ≠ "" ∧
      customerDetails.phone ≠ "" ∧ customerDetails.licensePlate ≠ "" then
    if currentUser = none then .signup else .confirm
  else if currentStep = .signup ∧ customerDetails.password ≠ "" then
    .confirm
  else currentStep

/-- Source prevStep: the backward transition; confirm steps back to
details with a session and to signup without one. -/
def prevStep (currentUser : Option String) (currentStep : Step) : Step :=
  if currentStep = .time then .date
  else if currentStep = .details then .time
  else if currentStep = .signup then .details
  else if currentStep = .confirm then
    (if currentUser ≠ none then .details else .signup)
  else currentStep

/-- The disabled condition of the forward control in the source footer. -/
def nextDisabled (selectedDate : Option Date) (selectedTime : String)
    (customerDetails : CustomerDetails) (currentStep : Step) : Bool :=
  selectedDate.isNone ||
  (currentStep == .time && selectedTime == "") ||
  (currentStep == .details && (customerDetails.firstName == "" ||
    customerDetails.lastName == "" || customerDetails.email == "" ||
    customerDetails.phone == "" || customerDetails.licensePlate == "")) ||
  (currentStep == .signup && customerDetails.password == "")

/-- The steps reachable in one modal lifetime for a fixed session state:
the machine starts on the date step, and moves only by nextStep with the
then-current field values, by prevStep, or by the jump back to the date
step offered when a day has no slots. -/
inductive Reachable (u : Option String) : Step → Prop where
  | init : Reachable u .date
  | next (sd : Option Date) (st : String) (cd : CustomerDetails) (s : Step) :
      Reachable u s → Reachable u (nextStep u sd st cd s)
  | prev (s : Step) : Reachable u s → Reachable u (prevStep u s)
  | reset (s : Step) : Reachable u s → Reachable u .date

lemma nextStep_eq_signup {u : Option String} {sd : Option Date} {st : String}
    {cd : CustomerDetails} {s : Step} (h : nextStep u sd st cd s = .signup) :
    s = .signup ∨ u = none := by
  rw [nextStep] at h
  split_ifs at h with h1 h2 h3 h4 h5
  · exact Or.inr h4
  · exact Or.inl h

lemma prevStep_eq_signup {u : Option String} {s : Step}
    (h : prevStep u s = .signup) : u = none := by
  rw [prevStep] at h
  split_ifs at h with h1 h2 h3 h4 h5 <;> simp_all

/-- Claim C7: in every reachable state of the step machine the signup
step occurs only without an authenticated session; with a session,
nextStep from details (all five mandatory fields non-empty) goes directly
to confirm and prevStep from confirm returns to details; without a
session, nextStep from details goes to signup (never directly to confirm)
and prevStep from confirm goes to signup. -/
theorem signup_only_without_session (u : String) (sd : Option Date) (st : String)
    (cd : CustomerDetails)
    (h5 : cd.firstName ≠ "" ∧ cd.lastName ≠ "" ∧ cd.email ≠ "" ∧
      cd.phone ≠ "" ∧ cd.licensePlate ≠ "") :
    (∀ (u' : Option String) (s : Step), Reachable u' s → s = .signup → u' = none) ∧
    nextStep (some u) sd st cd .details = .confirm ∧
    prevStep (some u) .confirm = .details ∧
    nextStep none sd st cd .details = .signup ∧
    nextStep none sd st cd .details ≠ .confirm ∧
    prevStep none .confirm = .signup := by
  obtain ⟨h1, h2, h3, h4, h5'⟩ := h5
  refine ⟨?_, ?_, ?_, ?_, ?_, ?_⟩
  · intro u' s hr
    induction hr with
    | init => intro h; exact absurd h (by simp)
    | next sd' st' cd' s' _ ih =>
        intro h
        rcases nextStep_eq_signup h with h' | h'
        · exact ih h'
        · exact h'
    | prev s' _ _ =>
        intro h
        exact prevStep_eq_signup h
    | reset s' _ _ =>
        intro h
        exact absurd h (by simp)
  · simp [nextStep, h1, h2, h3, h4, h5']
  · simp [prevStep]
  · simp [nextStep, h1, h2, h3, h4, h5']
  · simp [nextStep, h1, h2, h3, h4, h5']
  · simp [prevStep]

/-- Concrete complete customer details for witnesses (empty password). -/
def cdFilled : CustomerDetails :=
  ⟨"Maija", "Meikäläinen", "maija@example.com", "+358401234567", "ABC-123", ""⟩

theorem signup_only_without_session_witness :
    (cdFilled.firstName ≠ "" ∧ cdFilled.lastName ≠ "" ∧ cdFilled.email ≠ "" ∧
      cdFilled.phone ≠ "" ∧ cdFilled.licensePlate ≠ "") ∧
    ((∀ (u' : Option String) (s : Step), Reachable u' s → s = .signup → u' = none) ∧
      nextStep (some "uid-1") (some dateMonday) "10:00" cdFilled .details = .confirm ∧
      prevStep (some "uid-1") .confirm = .details ∧
      nextStep none (some dateMonday) "10:00" cdFilled .details = .signup ∧
      nextStep none (some dateMonday) "10:00" cdFilled .details ≠ .confirm ∧
      prevStep none .confirm = .signup) :=
  ⟨by decide,
   signup_only_without_session "uid-1" (some dateMonday) "10:00" cdFilled (by decide)⟩

/-- Concrete details with a 3-character password for the C2 refutation. -/
def cdShortPwd : CustomerDetails :=
  ⟨"Maija", "Meikäläinen", "maija@example.com", "+358401234567", "ABC-123", "abc"⟩

/-- Claim C2 refutation: the claim says the signup-to-confirm transition
requires a password of length at least 6 and that shorter passwords leave
the step unchanged with the forward control disabled.  The code checks
only truthiness: with the 3-character password abc, nextStep advances
from signup to confirm and the forward control is enabled. -/
theorem nextStep_signup_short_password :
    cdShortPwd.password.length < 6 ∧
    cdShortPwd.password ≠ "" ∧
    nextStep none (some dateMonday) "10:00" cdShortPwd .signup = .confirm ∧
    nextDisabled (some dateMonday) "10:00" cdShortPwd .signup = false := by
  refine ⟨by decide, by decide, by decide, by decide⟩

end Booking
namespace Booking

/-- Outcome of the just-in-time account-creation call: a new identity, the
distinguished email-already-in-use failure code, or any other failure. -/
inductive SignupOutcome where
  | success (uid : String)
  | emailAlreadyInUse
  | otherFailure
deriving DecidableEq

/-- Outcome of the appointment persistence call. -/
inductive CreateOutcome where
  | success
  | failure
deriving DecidableEq

/-- The combined date and time-of-day of the appointment, as produced by
setting hours and minutes parsed from the selected slot on the date. -/
structure DateTime where
  day : Date
  hours : Nat
  minutes : Nat
deriving DecidableEq

/-- Snapshot of customer details embedded in the appointment (without the
password). -/
structure CustomerSnapshot where
  firstName : String
  lastName : String
  email : String
  phone : String
  licensePlate : String
deriving DecidableEq

/-- The appointment record handed to createAppointment. -/
structure AppointmentData where
  customerId : String
  vendorId : String
  serviceId : String
  date : DateTime
  status : String
  totalPrice : ℚ
  customerDetails : CustomerSnapshot
deriving DecidableEq

/-- Outcome of one handleSubmit invocation: the error message shown (if
any), whether the login recovery action is exposed, the arguments of the
createAppointment call when it was made, and the success flag. -/
structure SubmitResult where
  error : Option String
  showLoginPrompt : Bool
  created : Option (AppointmentData × ℤ)
  bookingComplete : Bool
deriving DecidableEq

/-- Literal UI copy of the source, reproduced verbatim. -/
def msgSelectDateTime : String := "Valitse päivä ja aika"

def msgFillDetails : String := "Täytä kaikki asiakastiedot"

def msgEmailInUse : String := "Sähköposti on jo käytössä. Kirjaudu sisään jatkaaksesi."

def msgLoginFailed : String := "Kirjautuminen epäonnistui"

def msgNotEnoughCoins : String := "Ei tarpeeksi kolikoita"

def msgBookingFailed : String := "Varauksen luonti epäonnistui. Yritä uudelleen."

/-- The tail of handleSubmit after identity resolution: the login check,
the date-time combination, the coin validation (note the boolean toggle is
compared numerically, as 1, against the wallet balance), the appointment
record with its totalPrice, and the createAppointment call whose coin
argument is computed against the undiscounted base price. -/
def submitWithUser (userId : Option String) (d : Date) (selectedTime : String)
    (customerDetails : CustomerDetails) (useCoins : Bool) (userData : Option User)
    (offers : List Offer) (service : Service) (vendorId : String) (now : ℚ)
    (createOutcome : CreateOutcome) : SubmitResult :=
  match userId with
  | none => ⟨some msgLoginFailed, false, none, false⟩
  | some uid =>
      let parts := splitOnColon selectedTime
      let dateTime : DateTime :=
        ⟨d, (parseIntStr (parts.getD 0 defaultMinuteStr)).getD 0,
          (parseIntStr (parts.getD 1 defaultMinuteStr)).getD 0⟩
      let insufficientCoins : Bool :=
        match userData with
        | none => true
        | some u => decide ((if useCoins then 1 else 0) > u.wallet.coins)
      if useCoins && insufficientCoins then
        ⟨some msgNotEnoughCoins, false, none, false⟩
      else
        let appointmentData : AppointmentData :=
          { customerId := uid
            vendorId := vendorId
            serviceId := service.id
            date := dateTime
            status := "confirmed"
            totalPrice :=
              if useCoins then
                max 0 (getDiscountedPrice offers service now -
                  ((min (walletCoinsOr0 userData : ℤ)
                      ⌊getDiscountedPrice offers service now / (0.5 : ℚ)⌋ : ℤ) : ℚ) * (0.5 : ℚ))
              else getDiscountedPrice offers service now
            customerDetails :=
              ⟨customerDetails.firstName, customerDetails.lastName, customerDetails.email,
                customerDetails.phone, customerDetails.licensePlate⟩ }
        let coinsToDebit : ℤ :=
          if useCoins then
            min (walletCoinsOr0 userData : ℤ) ⌊service.price / (0.5 : ℚ)⌋
          else 0
        match createOutcome with
        | .success => ⟨none, false, some (appointmentData, coinsToDebit), true⟩
        | .failure => ⟨some msgBookingFailed, false, some (appointmentData, coinsToDebit), false⟩

/-- Source handleSubmit: the submission sequencer, with the effectful
collaborators (signup and createAppointment) given as explicit outcomes.
The rethrown unknown signup failure lands in the generic catch. -/
def handleSubmit (currentUser : Option String) (selectedDate : Option Date)
    (selectedTime : String) (customerDetails : CustomerDetails) (useCoins : Bool)
    (userData : Option User) (offers : List Offer) (service : Service)
    (vendorId : String) (now : ℚ) (signupOutcome : SignupOutcome)
    (createOutcome : CreateOutcome) : SubmitResult :=
  match selectedDate with
  | none => ⟨some msgSelectDateTime, false, none, false⟩
  | some d =>
      if selectedTime = "" then ⟨some msgSelectDateTime, false, none, false⟩
      else if customerDetails.firstName = "" ∨ customerDetails.lastName = "" ∨
          customerDetails.email = "" ∨ customerDetails.phone = "" ∨
          customerDetails.licensePlate = "" then
        ⟨some msgFillDetails, false, none, false⟩
      else if currentUser = none ∧ customerDetails.password ≠ "" then
        match signupOutcome with
        | .success uid =>
            submitWithUser (some uid) d selectedTime customerDetails useCoins userData
              offers service vendorId now createOutcome
        | .emailAlreadyInUse => ⟨some msgEmailInUse, true, none, false⟩
        | .otherFailure => ⟨some msgBookingFailed, false, none, false⟩
      else
        submitWithUser currentUser d selectedTime customerDetails useCoins userData
          offers service vendorId now createOutcome

/-- Claim C8: when just-in-time account creation fails with the
email-already-in-use condition, submission halts with the conflict
message and the login recovery action exposed and createAppointment is
not called; any other account-creation failure is reported with the
generic retry message, again without creating an appointment. -/
theorem signup_conflict_recoverable (sd : Date) (st : String) (cd : CustomerDetails)
    (useCoins : Bool) (userData : Option User) (offers : List Offer) (service : Service)
    (vendorId : String) (now : ℚ) (co : CreateOutcome)
    (hst : st ≠ "")
    (hcd : cd.firstName ≠ "" ∧ cd.lastName ≠ "" ∧ cd.email ≠ "" ∧
      cd.phone ≠ "" ∧ cd.licensePlate ≠ "")
    (hpw : cd.password ≠ "") :
    handleSubmit none (some sd) st cd useCoins userData offers service vendorId now
        .emailAlreadyInUse co =
      ⟨some msgEmailInUse, true, none, false⟩ ∧
    handleSubmit none (some sd) st cd useCoins userData offers service vendorId now
        .otherFailure co =
      ⟨some msgBookingFailed, false, none, false⟩ := by
  obtain ⟨h1, h2, h3, h4, h5⟩ := hcd
  constructor <;> simp [handleSubmit, hst, h1, h2, h3, h4, h5, hpw]

/-- Concrete details with a long-enough password for witnesses. -/
def cdWithPwd : CustomerDetails :=
  ⟨"Maija", "Meikäläinen", "maija@example.com", "+358401234567", "ABC-123", "salasana1"⟩

theorem signup_conflict_recoverable_witness :
    ("10:00" : String) ≠ "" ∧
    (cdWithPwd.firstName ≠ "" ∧ cdWithPwd.lastName ≠ "" ∧ cdWithPwd.email ≠ "" ∧
      cdWithPwd.phone ≠ "" ∧ cdWithPwd.licensePlate ≠ "") ∧
    cdWithPwd.password ≠ "" ∧
    (handleSubmit none (some dateMonday) "10:00" cdWithPwd false none [] serviceOne
        "vendor-1" 0 .emailAlreadyInUse .success =
      ⟨some msgEmailInUse, true, none, false⟩ ∧
    handleSubmit none (some dateMonday) "10:00" cdWithPwd false none [] serviceOne
        "vendor-1" 0 .otherFailure .success =
      ⟨some msgBookingFailed, false, none, false⟩) :=
  ⟨by decide, by decide, by decide,
   signup_conflict_recoverable dateMonday "10:00" cdWithPwd false none [] serviceOne
     "vendor-1" 0 .success (by decide) (by decide) (by decide)⟩

end Booking
namespace Booking

/-- Claim C9: with redemption enabled, the insufficient-coins validation
rejects (message Ei tarpeeksi kolikoita, no appointment created) exactly
when the wallet data is absent or holds zero coins; any wallet holding at
least one coin passes regardless of how many coins the redemption formula
consumes, because the boolean toggle is compared numerically as 1 against
the balance. -/
theorem coin_check_rejects_only_empty_wallet (uid : String) (sd : Date) (st : String)
    (cd : CustomerDetails) (userData : Option User) (offers : List Offer)
    (service : Service) (vendorId : String) (now : ℚ) (so : SignupOutcome)
    (co : CreateOutcome)
    (hst : st ≠ "")
    (hcd : cd.firstName ≠ "" ∧ cd.lastName ≠ "" ∧ cd.email ≠ "" ∧
      cd.phone ≠ "" ∧ cd.licensePlate ≠ "") :
    ((handleSubmit (some uid) (some sd) st cd true userData offers service vendorId now
        so co).error = some msgNotEnoughCoins ↔
      userData = none ∨ walletCoinsOr0 userData = 0) ∧
    ((userData = none ∨ walletCoinsOr0 userData = 0) →
      (handleSubmit (some uid) (some sd) st cd true userData offers service vendorId now
        so co).created = none) ∧
    (∀ u : User, userData = some u → 1 ≤ u.wallet.coins →
      (handleSubmit (some uid) (some sd) st cd true userData offers service vendorId now
          so co).error ≠ some msgNotEnoughCoins ∧
      (handleSubmit (some uid) (some sd) st cd true userData offers service vendorId now
          so co).created.isSome = true) := by
  obtain ⟨h1, h2, h3, h4, h5⟩ := hcd
  have hbranch : handleSubmit (some uid) (some sd) st cd true userData offers service
      vendorId now so co =
      submitWithUser (some uid) sd st cd true userData offers service vendorId now co := by
    simp [handleSubmit, hst, h1, h2, h3, h4, h5]
  rw [hbranch]
  refine ⟨?_, ?_, ?_⟩
  · cases userData with
    | none => simp [submitWithUser, walletCoinsOr0]
    | some u =>
        by_cases hc : u.wallet.coins = 0
        · simp [submitWithUser, walletCoinsOr0, hc]
        · cases co <;>
            simp [submitWithUser, walletCoinsOr0, hc, msgNotEnoughCoins, msgBookingFailed]
  · intro h
    cases userData with
    | none => simp [submitWithUser]
    | some u =>
        have hc : u.wallet.coins = 0 := by
          rcases h with h | h
          · exact absurd h (by simp)
          · simpa [walletCoinsOr0] using h
        simp [submitWithUser, hc]
  · intro u hu hcoins
    subst hu
    have hc : ¬ u.wallet.coins = 0 := by omega
    cases co <;>
      simp [submitWithUser, hc, msgNotEnoughCoins, msgBookingFailed]

/-- A wallet with a single coin, for the C9 witness. -/
def userOneCoin : User := ⟨⟨1⟩⟩

theorem coin_check_rejects_only_empty_wallet_witness :
    ("10:00" : String) ≠ "" ∧
    (cdFilled.firstName ≠ "" ∧ cdFilled.lastName ≠ "" ∧ cdFilled.email ≠ "" ∧
      cdFilled.phone ≠ "" ∧ cdFilled.licensePlate ≠ "") ∧
    (((handleSubmit (some "uid-1") (some dateMonday) "10:00" cdFilled true
        (some userOneCoin) [] serviceOne "vendor-1" 0 (.success "uid-1") .success).error =
          some msgNotEnoughCoins ↔
      (some userOneCoin = none ∨ walletCoinsOr0 (some userOneCoin) = 0)) ∧
    ((some userOneCoin = none ∨ walletCoinsOr0 (some userOneCoin) = 0) →
      (handleSubmit (some "uid-1") (some dateMonday) "10:00" cdFilled true
        (some userOneCoin) [] serviceOne "vendor-1" 0 (.success "uid-1") .success).created =
        none) ∧
    (∀ u : User, some userOneCoin = some u → 1 ≤ u.wallet.coins →
      (handleSubmit (some "uid-1") (some dateMonday) "10:00" cdFilled true
          (some userOneCoin) [] serviceOne "vendor-1" 0 (.success "uid-1") .success).error ≠
        some msgNotEnoughCoins ∧
      (handleSubmit (some "uid-1") (some dateMonday) "10:00" cdFilled true
          (some userOneCoin) [] serviceOne "vendor-1" 0 (.success "uid-1")
          .success).created.isSome = true)) :=
  ⟨by decide, by decide,
   coin_check_rejects_only_empty_wallet "uid-1" dateMonday "10:00" cdFilled
     (some userOneCoin) [] serviceOne "vendor-1" 0 (.success "uid-1") .success
     (by decide) (by decide)⟩

/-- Claim C10: vendor offers are fetched only with an authenticated
session, so a booking submitted without a prior session sees an empty
offer list, a resolved discount of 0, and an appointment totalPrice equal
to the undiscounted base price, even if an active in-window offer exists
for the service. -/
theorem no_session_no_discount (vendorOffers : List Offer) (sd : Date) (st : String)
    (cd : CustomerDetails) (service : Service) (vendorId : String) (now : ℚ) (uid : String)
    (hst : st ≠ "")
    (hcd : cd.firstName ≠ "" ∧ cd.lastName ≠ "" ∧ cd.email ≠ "" ∧
      cd.phone ≠ "" ∧ cd.licensePlate ≠ "")
    (hpw : cd.password ≠ "") :
    loadedOffers none vendorOffers = [] ∧
    getServiceDiscount (loadedOffers none vendorOffers) service now = 0 ∧
    (handleSubmit none (some sd) st cd false none (loadedOffers none vendorOffers)
        service vendorId now (.success uid) .success).bookingComplete = true ∧
    Option.map (fun p => p.1.totalPrice)
      (handleSubmit none (some sd) st cd false none (loadedOffers none vendorOffers)
        service vendorId now (.success uid) .success).created = some service.price := by
  obtain ⟨h1, h2, h3, h4, h5⟩ := hcd
  refine ⟨rfl, ?_, ?_, ?_⟩
  · simp [loadedOffers, getServiceDiscount]
  · simp [handleSubmit, hst, h1, h2, h3, h4, h5, hpw, submitWithUser]
  · simp [handleSubmit, hst, h1, h2, h3, h4, h5, hpw, submitWithUser,
      getDiscountedPrice, loadedOffers, getServiceDiscount]

/-- An always-applicable 30 percent offer for serviceOne, demonstrating
that even an active in-window offer is not applied without a session. -/
def offerActiveForOne : Offer := ⟨"svc-one", 30, true, 0, 100⟩

theorem no_session_no_discount_witness :
    ("10:00" : String) ≠ "" ∧
    (cdWithPwd.firstName ≠ "" ∧ cdWithPwd.lastName ≠ "" ∧ cdWithPwd.email ≠ "" ∧
      cdWithPwd.phone ≠ "" ∧ cdWithPwd.licensePlate ≠ "") ∧
    cdWithPwd.password ≠ "" ∧
    (offerActiveForOne.active = true ∧ offerActiveForOne.serviceId = serviceOne.id ∧
      offerActiveForOne.startDate ≤ 50 ∧ (50 : ℚ) ≤ offerActiveForOne.endDate) ∧
    (loadedOffers none [offerActiveForOne] = [] ∧
    getServiceDiscount (loadedOffers none [offerActiveForOne]) serviceOne 50 = 0 ∧
    (handleSubmit none (some dateMonday) "10:00" cdWithPwd false none
        (loadedOffers none [offerActiveForOne]) serviceOne "vendor-1" 50
        (.success "uid-new") .success).bookingComplete = true ∧
    Option.map (fun p => p.1.totalPrice)
      (handleSubmit none (some dateMonday) "10:00" cdWithPwd false none
        (loadedOffers none [offerActiveForOne]) serviceOne "vendor-1" 50
        (.success "uid-new") .success).created = some serviceOne.price) :=
  ⟨by decide, by decide, by decide, by norm_num [offerActiveForOne, serviceOne],
   no_session_no_discount [offerActiveForOne] dateMonday "10:00" cdWithPwd serviceOne
     "vendor-1" 50 "uid-new" (by decide) (by decide) (by decide)⟩

end Booking
namespace Booking

/-- A 100-unit service targeted by a 20 percent offer, for the C1 test. -/
def serviceC1 : Service := ⟨"svc-c1", 100⟩

/-- An active offer of 20 percent on serviceC1 with window 0..100. -/
def offerC1 : Offer := ⟨"svc-c1", 20, true, 0, 100⟩

/-- A wallet of 180 coins: more than the 160 redeemable against the
discounted price 80, fewer than the 200 the base price 100 would allow. -/
def userRich : User := ⟨⟨180⟩⟩

/-- Claim C1 refutation: the claim says the coin count passed to
createAppointment equals the coin count used to reduce totalPrice, both
computed against the same discounted price.  With base price 100, an
active 20 percent offer (discounted price 80) and a wallet of 180 coins,
the code passes min(180, floor(100 / 0.5)) = 180 coins (90.00 currency)
to createAppointment while totalPrice is reduced by min(180,
floor(80 / 0.5)) = 160 coins (80.00 currency) to exactly 0. -/
theorem coin_debit_price_mismatch :
    getDiscountedPrice (loadedOffers (some "uid-1") [offerC1]) serviceC1 50 = 80 ∧
    Option.map (fun p => p.2)
      (handleSubmit (some "uid-1") (some dateMonday) "10:00" cdFilled true (some userRich)
        (loadedOffers (some "uid-1") [offerC1]) serviceC1 "vendor-1" 50
        (.success "uid-1") .success).created = some 180 ∧
    Option.map (fun p => p.1.totalPrice)
      (handleSubmit (some "uid-1") (some dateMonday) "10:00" cdFilled true (some userRich)
        (loadedOffers (some "uid-1") [offerC1]) serviceC1 "vendor-1" 50
        (.success "uid-1") .success).created = some 0 ∧
    min (walletCoinsOr0 (some userRich) : ℤ)
      ⌊getDiscountedPrice (loadedOffers (some "uid-1") [offerC1]) serviceC1 50 / (0.5 : ℚ)⌋
      = 160 ∧
    (180 : ℤ) ≠ 160 ∧
    ((180 : ℚ) * (0.5 : ℚ) ≠ 80 - 0) := by
  have hload : loadedOffers (some "uid-1") [offerC1] = [offerC1] := by
    simp [loadedOffers, offerC1]
  have hdisc : getServiceDiscount [offerC1] serviceC1 50 = 20 := by
    norm_num [getServiceDiscount, offerC1, serviceC1, List.find?]
  have hdp : getDiscountedPrice (loadedOffers (some "uid-1") [offerC1]) serviceC1 50 = 80 := by
    rw [hload, getDiscountedPrice, hdisc]
    norm_num [serviceC1]
  refine ⟨hdp, ?_, ?_, ?_, by decide, by norm_num⟩
  · simp [handleSubmit, submitWithUser, cdFilled, hload]
    norm_num [walletCoinsOr0, userRich, serviceC1]
  · simp [handleSubmit, submitWithUser, cdFilled, hload]
    rw [getDiscountedPrice, hdisc]
    norm_num [walletCoinsOr0, userRich, serviceC1]
  · rw [hdp]
    norm_num [walletCoinsOr0, userRich]

end Booking
